import Mathlib

set_option maxRecDepth 100000

/-!
# Verification of the eBPF-Test packet preprocessing engine

Shallow embedding of the data path of the eBPF-Test repository:

* the in-kernel XDP classifier `xdp_packet_processor` with its helper
  parsers `parse_ethernet`, `parse_ipv4`, `parse_udp` and the statistics
  helper `update_stat` (src/xdp_preproc.c);
* the user-space AF_XDP feature extractor `extract_ml_features` with
  `calculate_entropy` and the drainer batch loop `run_ml_processor`
  (ml_af_xdp_processor.c).

Modelling conventions:

* A frame is a `List Nat` of its bytes in wire order.  Out-of-range byte
  reads yield 0 (`List.getD`); every read the C code performs behind a
  bounds check is in range, so this convention only shows where the C
  code itself reads past the captured data.
* 16- and 32-bit wire fields are represented by their network-order
  numeric value (`be16`, `be32`).  The target host is little-endian, so
  `ntohs`/`ntohl` produce exactly these values; storing the raw wire
  word instead (as the kernel-side feature struct does) is in bijection
  with this representation, and no kernel-side claim inspects such a
  value numerically.
* The statistics BPF array map of `max_entries` 4 is a `List Nat` of
  length 4; `bpf_map_lookup_elem` on an out-of-range index returns NULL
  and the update is a no-op, which `List.set` models exactly.
* The floating-point body of the Shannon-entropy computation is the
  only non-integer code; it is abstracted as an explicit function
  parameter `entropyBody`, and every theorem holds for every choice of
  that parameter.  The integer guard `len == 0 -> 0` of
  `calculate_entropy` is modelled faithfully.
-/

/-- Byte of frame `f` at offset `i`; 0 beyond the captured data. -/
def byteD (f : List Nat) (i : Nat) : Nat := f.getD i 0

/-- Network-order (big-endian) 16-bit field at offset `i`. -/
def be16 (f : List Nat) (i : Nat) : Nat := 256 * byteD f i + byteD f (i + 1)

/-- Network-order (big-endian) 32-bit field at offset `i`. -/
def be32 (f : List Nat) (i : Nat) : Nat :=
  16777216 * byteD f i + 65536 * byteD f (i + 1) + 256 * byteD f (i + 2) + byteD f (i + 3)

/-- XDP verdicts used by the classifier (xdp_preproc.c only ever
    returns `XDP_PASS`; `XDP_DROP` is included to state that fact). -/
inductive XdpAction where
  | XDP_PASS : XdpAction
  | XDP_DROP : XdpAction
deriving DecidableEq, Repr

/-- `update_stat` from xdp_preproc.c: atomic fetch-add into the
    statistics array map.  A lookup outside the 4 entries returns NULL
    and the add is skipped, exactly as `List.set` ignores an
    out-of-range index.  This variant carries the mathematical
    (unwrapped) sum; the map values are `__u64`, so `update_stat_u64`
    below makes the wraparound modulo 2^64 of `__sync_fetch_and_add`
    explicit, and the counter-monotonicity claim is settled against
    that wrap-faithful model. -/
def update_stat (stats : List Nat) (index delta : Nat) : List Nat :=
  stats.set index (byteD stats index + delta)

/-- `parse_ethernet` from xdp_preproc.c: bounds-check the 14-byte
    Ethernet header, require ethertype IPv4 (0x0800), return the offset
    of the next header. -/
def parse_ethernet (f : List Nat) : Option Nat :=
  if f.length < 14 then none
  else if be16 f 12 = 2048 then some 14 else none

/-- `parse_ipv4` from xdp_preproc.c at offset `off`: bounds-check the
    fixed 20-byte header, require version 4 and ihl at least 5,
    bounds-check the variable-length header, require protocol UDP (17),
    and return (saddr, daddr, total length, next-header offset). -/
def parse_ipv4 (f : List Nat) (off : Nat) : Option (Nat × Nat × Nat × Nat) :=
  if f.length < off + 20 then none
  else if byteD f off / 16 ≠ 4 then none
  else if byteD f off % 16 < 5 then none
  else if f.length < off + (byteD f off % 16) * 4 then none
  else if byteD f (off + 9) ≠ 17 then none
  else some (be32 f (off + 12), be32 f (off + 16), be16 f (off + 2),
             off + (byteD f off % 16) * 4)

/-- `parse_udp` from xdp_preproc.c at offset `off`: bounds-check the
    8-byte UDP header and return (source port, destination port). -/
def parse_udp (f : List Nat) (off : Nat) : Option (Nat × Nat) :=
  if f.length < off + 8 then none
  else some (be16 f off, be16 f (off + 2))

/-- The `struct feature` record submitted to the ring buffer by
    xdp_preproc.c. -/
structure XdpFeature where
  src_ip : Nat
  dst_ip : Nat
  src_port : Nat
  dst_port : Nat
  pkt_len : Nat
  timestamp : Nat
deriving DecidableEq, Repr

/-- `xdp_packet_processor` from xdp_preproc.c.  `ringFull` models
    `bpf_ringbuf_reserve` returning NULL; `startTime` models the
    `bpf_ktime_get_ns` entry timestamp and `procDelta` the measured
    processing-time difference.  Returns the verdict, the updated
    statistics array (indices: 0 total, 1 udp, 2 dropped,
    3 processing time) and the submitted feature, if any. -/
def xdp_packet_processor (f : List Nat) (ringFull : Bool) (startTime procDelta : Nat)
    (stats : List Nat) : XdpAction × List Nat × Option XdpFeature :=
  let stats1 := update_stat stats 0 1
  match parse_ethernet f with
  | none => (XdpAction.XDP_PASS, update_stat stats1 2 1, none)
  | some off =>
    match parse_ipv4 f off with
    | none => (XdpAction.XDP_PASS, update_stat stats1 2 1, none)
    | some (saddr, daddr, totLen, off2) =>
      match parse_udp f off2 with
      | none => (XdpAction.XDP_PASS, update_stat stats1 2 1, none)
      | some (sp, dp) =>
        if ringFull then (XdpAction.XDP_PASS, update_stat stats1 2 1, none)
        else
          (XdpAction.XDP_PASS,
           update_stat (update_stat stats1 1 1) 3 procDelta,
           some { src_ip := saddr, dst_ip := daddr, src_port := sp, dst_port := dp,
                  pkt_len := totLen, timestamp := startTime })

/-- The exact condition under which xdp_preproc.c reaches the
    ring-buffer submission path: well-formed Ethernet + IPv4 headers,
    protocol UDP and a complete UDP header. -/
def classifier_accepts (f : List Nat) : Prop :=
  14 ≤ f.length ∧ be16 f 12 = 2048 ∧ 34 ≤ f.length ∧
  byteD f 14 / 16 = 4 ∧ 5 ≤ byteD f 14 % 16 ∧
  14 + (byteD f 14 % 16) * 4 ≤ f.length ∧ byteD f 23 = 17 ∧
  14 + (byteD f 14 % 16) * 4 + 8 ≤ f.length

instance (f : List Nat) : Decidable (classifier_accepts f) := by
  unfold classifier_accepts; infer_instance

/-- The malformed-frame classes named by the safety claim: truncated
    Ethernet header, non-IPv4 ethertype, truncated IPv4 header, version
    not 4, ihl below 5, capture shorter than the announced IPv4 header,
    and (for UDP) a truncated UDP header. -/
def ClassifierMalformed (f : List Nat) : Prop :=
  f.length < 14 ∨ be16 f 12 ≠ 2048 ∨ f.length < 34 ∨
  byteD f 14 / 16 ≠ 4 ∨ byteD f 14 % 16 < 5 ∨
  f.length < 14 + (byteD f 14 % 16) * 4 ∨
  (byteD f 23 = 17 ∧ f.length < 14 + (byteD f 14 % 16) * 4 + 8)

instance (f : List Nat) : Decidable (ClassifierMalformed f) := by
  unfold ClassifierMalformed; infer_instance

/-- A frame whose Ethernet and IPv4 headers are well formed: the
    parsing prefix of the classifier succeeds up to (excluding) the
    protocol check. -/
def WellFormedIPv4 (f : List Nat) : Prop :=
  14 ≤ f.length ∧ be16 f 12 = 2048 ∧ 34 ≤ f.length ∧
  byteD f 14 / 16 = 4 ∧ 5 ≤ byteD f 14 % 16 ∧
  14 + (byteD f 14 % 16) * 4 ≤ f.length

instance (f : List Nat) : Decidable (WellFormedIPv4 f) := by
  unfold WellFormedIPv4; infer_instance

/-- Run the classifier over a trace of inputs
    (frame, ring-full flag, processing-time delta), threading the
    statistics map through.  This run carries the mathematical
    (unwrapped) counter values; it is the reference used to phrase the
    no-wrap side condition of the wrap-faithful run below. -/
def xdp_run : List (List Nat × Bool × Nat) → List Nat → List Nat
  | [], stats => stats
  | (f, rf, d) :: tr, stats =>
      xdp_run tr (xdp_packet_processor f rf 0 d stats).2.1

/-- `update_stat` with the 64-bit wraparound of `__sync_fetch_and_add`
    on the `__u64` map values made explicit: the stored value is the
    fetch-add reduced modulo 2^64. -/
def update_stat_u64 (stats : List Nat) (index delta : Nat) : List Nat :=
  stats.set index ((byteD stats index + delta) % 18446744073709551616)

/-- `xdp_packet_processor` with every statistics update performed by
    the wrap-faithful `update_stat_u64`: the same function as
    `xdp_packet_processor`, carrying the `__u64` counter values
    modulo 2^64 as the hardware does. -/
def xdp_packet_processor_u64 (f : List Nat) (ringFull : Bool) (startTime procDelta : Nat)
    (stats : List Nat) : XdpAction × List Nat × Option XdpFeature :=
  let stats1 := update_stat_u64 stats 0 1
  match parse_ethernet f with
  | none => (XdpAction.XDP_PASS, update_stat_u64 stats1 2 1, none)
  | some off =>
    match parse_ipv4 f off with
    | none => (XdpAction.XDP_PASS, update_stat_u64 stats1 2 1, none)
    | some (saddr, daddr, totLen, off2) =>
      match parse_udp f off2 with
      | none => (XdpAction.XDP_PASS, update_stat_u64 stats1 2 1, none)
      | some (sp, dp) =>
        if ringFull then (XdpAction.XDP_PASS, update_stat_u64 stats1 2 1, none)
        else
          (XdpAction.XDP_PASS,
           update_stat_u64 (update_stat_u64 stats1 1 1) 3 procDelta,
           some { src_ip := saddr, dst_ip := daddr, src_port := sp, dst_port := dp,
                  pkt_len := totLen, timestamp := startTime })

/-- Run the wrap-faithful classifier over a trace of inputs, threading
    the `__u64` statistics map (values modulo 2^64) through. -/
def xdp_run_u64 : List (List Nat × Bool × Nat) → List Nat → List Nat
  | [], stats => stats
  | (f, rf, d) :: tr, stats =>
      xdp_run_u64 tr (xdp_packet_processor_u64 f rf 0 d stats).2.1

/-- The `struct ml_feature` record of ml_af_xdp_processor.c, delivered
    to the analysis callback.  `inter_arrival_time` is zero-initialised
    and never written by `extract_ml_features`. -/
structure MlFeature where
  src_ip : Nat
  dst_ip : Nat
  src_port : Nat
  dst_port : Nat
  protocol : Nat
  pkt_len : Nat
  tcp_flags : Nat
  payload_len : Nat
  flow_hash : Nat
  timestamp : Nat
  traffic_class : Nat
  direction : Nat
  packet_entropy : Nat
  inter_arrival_time : Nat
  window_size : Nat
  ttl : Nat
deriving DecidableEq, Repr

/-- `calculate_entropy` from ml_af_xdp_processor.c.  The zero-length
    guard is the integer part of the function; the byte-frequency /
    floating-point Shannon sum is abstracted as `entropyBody`. -/
def calculate_entropy (entropyBody : List Nat → Nat) (data : List Nat) : Nat :=
  if data.length = 0 then 0 else entropyBody data

/-- The L4 block of `extract_ml_features`: (src_port, dst_port,
    tcp_flags, window_size), each 0 unless the protocol is TCP or UDP
    and the corresponding fixed-size L4 header fits in the capture.
    `ntohs` on the little-endian host yields the `be16` values. -/
def ml_l4 (f : List Nat) : Nat × Nat × Nat × Nat :=
  let t := 14 + (byteD f 14 % 16) * 4
  if byteD f 23 = 6 then
    if t + 20 ≤ f.length then
      (be16 f t, be16 f (t + 2), byteD f (t + 13), be16 f (t + 14))
    else (0, 0, 0, 0)
  else if byteD f 23 = 17 then
    if t + 8 ≤ f.length then (be16 f t, be16 f (t + 2), 0, 0)
    else (0, 0, 0, 0)
  else (0, 0, 0, 0)

/-- `header_len` as computed by the payload-analysis block of
    `extract_ml_features`: Ethernet header + IPv4 header (ihl words) +
    TCP data offset words for TCP, the fixed 8 bytes for UDP, nothing
    otherwise.  The TCP data-offset byte is read without a bounds
    check in the C code. -/
def ml_header_len (f : List Nat) : Nat :=
  let t := 14 + (byteD f 14 % 16) * 4
  if byteD f 23 = 6 then t + (byteD f (t + 12) / 16) * 4
  else if byteD f 23 = 17 then t + 8
  else t

/-- The record built by the body of `extract_ml_features` once the
    Ethernet/IPv4 bounds checks have passed.  Addresses are `ntohl`-ed
    and ports `ntohs`-ed (host byte order); `pkt_len` is the captured
    frame length truncated to the 16-bit field; `payload_len` is the
    16-bit truncation of capture length minus `header_len` when
    positive and 0 otherwise; the flow hash xors the shifted 5-tuple
    exactly as the C expression does. -/
def mkMlFeature (entropyBody : List Nat → Nat) (now : Nat) (f : List Nat) : MlFeature :=
  let sp := (ml_l4 f).1
  let dp := (ml_l4 f).2.1
  let proto := byteD f 23
  let sip := be32 f 26
  let dip := be32 f 30
  let hl := ml_header_len f
  let plen := if hl < f.length then (f.length - hl) % 65536 else 0
  { src_ip := sip
    dst_ip := dip
    src_port := sp
    dst_port := dp
    protocol := proto
    pkt_len := f.length % 65536
    tcp_flags := (ml_l4 f).2.2.1
    payload_len := plen
    flow_hash := sip ^^^ (dip <<< 32) ^^^ (sp <<< 16) ^^^ (dp <<< 48) ^^^ (proto <<< 8)
    timestamp := now
    traffic_class :=
      if sp = 22 ∨ dp = 22 ∨ sp = 53 ∨ dp = 53 ∨ sp = 80 ∨ dp = 80 ∨ sp = 443 ∨ dp = 443
      then 2
      else if (sp > 49152 ∧ dp > 49152) ∨ (proto ≠ 6 ∧ proto ≠ 17) then 1
      else 0
    direction := if sp > dp then 1 else 0
    packet_entropy :=
      if hl < f.length then calculate_entropy entropyBody ((f.drop hl).take plen) else 0
    inter_arrival_time := 0
    window_size := (ml_l4 f).2.2.2
    ttl := byteD f 22 }

/-- `extract_ml_features` from ml_af_xdp_processor.c: fail on a capture
    shorter than the Ethernet header, a non-IPv4 ethertype, or a
    capture that cannot hold the fixed 20-byte IPv4 header; otherwise
    build the feature record. -/
def extract_ml_features (entropyBody : List Nat → Nat) (now : Nat) (f : List Nat) :
    Option MlFeature :=
  if f.length < 14 then none
  else if be16 f 12 ≠ 2048 then none
  else if f.length < 34 then none
  else some (mkMlFeature entropyBody now f)

/-- The `struct stats_record` of ml_af_xdp_processor.c. -/
structure StatsRecord where
  rx_packets : Nat
  rx_bytes : Nat
  tx_packets : Nat
  tx_bytes : Nat
  ml_features_extracted : Nat
  ml_predictions_made : Nat
  processing_time_ns : Nat
deriving DecidableEq, Repr

/-- Drainer-side state of `struct xsk_socket_info`: the
    `umem_frame_addr` stack with its `umem_frame_free` index (a u32 in
    the C code), the contents of the fill ring (addresses, in
    publication order), the cumulative number of RX descriptors
    released, and the statistics record. -/
structure DrainerState where
  umem_frame_addr : List Nat
  umem_frame_free : Nat
  fill : List Nat
  rxReleased : Nat
  stats : StatsRecord
deriving DecidableEq, Repr

/-- Body of the per-descriptor loop of `run_ml_processor`: re-parse the
    frame; on success invoke the callback `cb` and update the ML
    statistics; in both cases count the packet and its bytes.  Returns
    the record handed to the callback, if any. -/
def process_one (entropyBody : List Nat → Nat) (cb : MlFeature → Int) (now delta : Nat)
    (st : DrainerState) (pkt : Nat × List Nat) : DrainerState × Option MlFeature :=
  match extract_ml_features entropyBody now pkt.2 with
  | some feat =>
      ({ st with stats :=
          { st.stats with
            ml_features_extracted := st.stats.ml_features_extracted + 1
            ml_predictions_made :=
              st.stats.ml_predictions_made + (if cb feat ≠ 0 then 1 else 0)
            processing_time_ns := st.stats.processing_time_ns + delta
            rx_packets := st.stats.rx_packets + 1
            rx_bytes := st.stats.rx_bytes + pkt.2.length } }, some feat)
  | none =>
      ({ st with stats :=
          { st.stats with
            rx_packets := st.stats.rx_packets + 1
            rx_bytes := st.stats.rx_bytes + pkt.2.length } }, none)

/-- The per-batch descriptor loop of `run_ml_processor`, returning the
    final state and the records handed to the callback, in order. -/
def process_loop (entropyBody : List Nat → Nat) (cb : MlFeature → Int) (now delta : Nat) :
    List (Nat × List Nat) → DrainerState → DrainerState × List MlFeature
  | [], st => (st, [])
  | pkt :: rest, st =>
      let r := process_one entropyBody cb now delta st pkt
      let rr := process_loop entropyBody cb now delta rest r.1
      (rr.1, match r.2 with
             | some feat => feat :: rr.2
             | none => rr.2)

/-- The fill-queue return loop of `run_ml_processor`: `n` times,
    pre-decrement the u32 `umem_frame_free` (with 32-bit wraparound)
    and publish `umem_frame_addr[umem_frame_free]` to the fill ring.
    Returns the published addresses in order and the final index. -/
def fill_pop : Nat → Nat → List Nat → List Nat × Nat
  | 0, free, _ => ([], free)
  | Nat.succ n, free, arr =>
      let free1 := (free + 4294967295) % 4294967296
      let rest := fill_pop n free1 arr
      (arr.getD free1 0 :: rest.1, rest.2)

/-- One iteration of the batch loop of `run_ml_processor` after a
    successful peek: process every peeked descriptor, release the batch
    from the RX ring, then reserve fill-ring slots (`canReserve` models
    `xsk_ring_prod__reserve`, which grants all `rcvd` slots or none)
    and publish addresses popped from the `umem_frame_addr` stack. -/
def process_batch (entropyBody : List Nat → Nat) (cb : MlFeature → Int) (now delta : Nat)
    (canReserve : Bool) (batch : List (Nat × List Nat)) (st : DrainerState) :
    DrainerState × List MlFeature :=
  let l := process_loop entropyBody cb now delta batch st
  let st1 := { l.1 with rxReleased := l.1.rxReleased + batch.length }
  let ret := if canReserve then batch.length else 0
  let fp := fill_pop ret st1.umem_frame_free st1.umem_frame_addr
  ({ st1 with fill := st1.fill ++ fp.1, umem_frame_free := fp.2 }, l.2)

/-- Frame addresses installed by `configure_xsk_socket`:
    `umem_frame_addr[i] = i * FRAME_SIZE` for the 4096 pool frames
    (FRAME_SIZE = 2048). -/
def initFrameAddrs : List Nat := (List.range 4096).map (fun i => i * 2048)

/-- Zero-initialised statistics record. -/
def zeroStats : StatsRecord :=
  { rx_packets := 0, rx_bytes := 0, tx_packets := 0, tx_bytes := 0,
    ml_features_extracted := 0, ml_predictions_made := 0, processing_time_ns := 0 }

/-- Drainer state right after `configure_xsk_socket`: the frame stack
    holds all 4096 addresses, `umem_frame_free = NUM_FRAMES`, and the
    fill ring has been pre-populated with every pool frame. -/
def initDrainer : DrainerState :=
  { umem_frame_addr := initFrameAddrs, umem_frame_free := 4096,
    fill := initFrameAddrs, rxReleased := 0, stats := zeroStats }

/-- A well-formed 54-byte TCP/IPv4 frame: Ethernet, minimal IPv4 header
    (version 4, ihl 5, ttl 64, protocol 6, 10.0.0.1 -> 10.0.0.2) and a
    20-byte TCP header with ports 40000 -> 80. -/
def tcpFrame54 : List Nat :=
  [0, 0, 0, 0, 0, 0, 0, 0, 0, 0, 0, 0, 8, 0,
   69, 0, 0, 40, 0, 0, 0, 0, 64, 6, 0, 0, 10, 0, 0, 1, 10, 0, 0, 2,
   156, 64, 0, 80, 0, 0, 0, 0, 0, 0, 0, 0, 80, 2, 32, 0, 0, 0, 0, 0]

/-- The single-UDP-packet scenario frame of the specification: Ethernet
    header, 20-byte IPv4 header with total length 128, ttl 64,
    protocol 17, 10.0.0.1 -> 10.0.0.2, an 8-byte UDP header with ports
    40000 -> 53, and 100 payload bytes of 0x41.  Captured length 142. -/
def pkt142 : List Nat :=
  [0, 0, 0, 0, 0, 0, 0, 0, 0, 0, 0, 0, 8, 0,
   69, 0, 0, 128, 0, 0, 0, 0, 64, 17, 0, 0, 10, 0, 0, 1, 10, 0, 0, 2,
   156, 64, 0, 53, 0, 108, 0, 0] ++ List.replicate 100 65

/-- A frame with the same 5-tuple as `pkt142` but a different ttl (99),
    a different payload (50 bytes of 0x42) and hence different lengths. -/
def pkt142b : List Nat :=
  [0, 0, 0, 0, 0, 0, 0, 0, 0, 0, 0, 0, 8, 0,
   69, 0, 0, 78, 0, 0, 0, 0, 99, 17, 0, 0, 10, 0, 0, 1, 10, 0, 0, 2,
   156, 64, 0, 53, 0, 58, 0, 0] ++ List.replicate 50 66

/-- A UDP/IPv4 frame whose source and destination ports are both
    exactly 49152, neither a service port nor above the code's strict
    ephemeral threshold. -/
def pkt49152 : List Nat :=
  [0, 0, 0, 0, 0, 0, 0, 0, 0, 0, 0, 0, 8, 0,
   69, 0, 0, 32, 0, 0, 0, 0, 64, 17, 0, 0, 10, 0, 0, 1, 10, 0, 0, 2,
   192, 0, 192, 0, 0, 12, 0, 0, 1, 2, 3, 4]

/-- An ICMP/IPv4 frame (protocol 1, 192.168.1.5 -> 10.1.2.3) with an
    8-byte echo-request body. -/
def pktIcmp : List Nat :=
  [0, 0, 0, 0, 0, 0, 0, 0, 0, 0, 0, 0, 8, 0,
   69, 0, 0, 28, 0, 0, 0, 0, 64, 1, 0, 0, 192, 168, 1, 5, 10, 1, 2, 3,
   8, 0, 0, 0, 0, 0, 0, 0]

/-- A 10-byte frame: the Ethernet header itself is truncated. -/
def badFrame10 : List Nat := [0, 0, 0, 0, 0, 0, 0, 0, 0, 0]

/-! ## Parser characterizations -/

/-- `parse_ethernet` succeeds exactly on captures of at least 14 bytes
    with ethertype IPv4, and then always returns offset 14. -/
theorem parse_ethernet_eq (f : List Nat) :
    parse_ethernet f =
      if 14 ≤ f.length ∧ be16 f 12 = 2048 then some 14 else none := by
  unfold parse_ethernet
  split_ifs with h1 h2 h3 h4 h5 <;> first | rfl | omega

/-- `parse_ipv4` at offset 14 succeeds exactly on frames with a
    complete, version-4, ihl-valid IPv4 header carrying protocol 17. -/
theorem parse_ipv4_eq (f : List Nat) :
    parse_ipv4 f 14 =
      if 34 ≤ f.length ∧ byteD f 14 / 16 = 4 ∧ 5 ≤ byteD f 14 % 16 ∧
         14 + (byteD f 14 % 16) * 4 ≤ f.length ∧ byteD f 23 = 17
      then some (be32 f 26, be32 f 30, be16 f 16, 14 + (byteD f 14 % 16) * 4)
      else none := by
  unfold parse_ipv4
  have h9 : (14 : Nat) + 9 = 23 := rfl
  have h12 : (14 : Nat) + 12 = 26 := rfl
  have h16 : (14 : Nat) + 16 = 30 := rfl
  have h2 : (14 : Nat) + 2 = 16 := rfl
  rw [h9, h12, h16, h2]
  split_ifs with h1 h2 h3 h4 h5 h6 <;> first | rfl | omega

/-- `parse_udp` succeeds exactly when the 8-byte UDP header fits. -/
theorem parse_udp_eq (f : List Nat) (off : Nat) :
    parse_udp f off =
      if off + 8 ≤ f.length then some (be16 f off, be16 f (off + 2)) else none := by
  unfold parse_udp
  split_ifs with h1 h2 h3 <;> first | rfl | omega

/-- The statistics output of the classifier: the UDP path bumps
    total, udp and processing time; every other path bumps total and
    dropped. -/
theorem xdp_stats_char (f : List Nat) (rf : Bool) (t d : Nat) (stats : List Nat) :
    (xdp_packet_processor f rf t d stats).2.1 =
      if classifier_accepts f ∧ rf = false then
        update_stat (update_stat (update_stat stats 0 1) 1 1) 3 d
      else
        update_stat (update_stat stats 0 1) 2 1 := by
  unfold xdp_packet_processor classifier_accepts
  rw [parse_ethernet_eq f]
  by_cases h1 : 14 ≤ f.length ∧ be16 f 12 = 2048
  · rw [if_pos h1]
    dsimp only
    rw [parse_ipv4_eq f]
    by_cases h2 : 34 ≤ f.length ∧ byteD f 14 / 16 = 4 ∧ 5 ≤ byteD f 14 % 16 ∧
        14 + (byteD f 14 % 16) * 4 ≤ f.length ∧ byteD f 23 = 17
    · rw [if_pos h2]
      dsimp only
      rw [parse_udp_eq f]
      by_cases h3 : 14 + (byteD f 14 % 16) * 4 + 8 ≤ f.length
      · rw [if_pos h3]
        dsimp only
        cases rf
        · rw [if_neg (by simp), if_pos (by tauto)]
        · rw [if_pos rfl, if_neg (by simp)]
      · rw [if_neg h3, if_neg (by tauto)]
    · rw [if_neg h2, if_neg (by tauto)]
  · rw [if_neg h1, if_neg (by tauto)]

/-- The classifier's verdict is `XDP_PASS` on every input. -/
theorem xdp_verdict_pass (f : List Nat) (rf : Bool) (t d : Nat) (stats : List Nat) :
    (xdp_packet_processor f rf t d stats).1 = XdpAction.XDP_PASS := by
  unfold xdp_packet_processor
  cases hpe : parse_ethernet f with
  | none => rfl
  | some off =>
    dsimp only
    cases hip : parse_ipv4 f off with
    | none => rfl
    | some q =>
      obtain ⟨s, dd, tl, o2⟩ := q
      dsimp only
      cases hu : parse_udp f o2 with
      | none => rfl
      | some p =>
        obtain ⟨sp, dp⟩ := p
        dsimp only
        cases rf <;> rfl

/-- A frame in one of the malformed classes never reaches the
    ring-buffer submission path. -/
theorem malformed_not_accepted (f : List Nat) (h : ClassifierMalformed f) :
    ¬ classifier_accepts f := by
  rintro ⟨a1, a2, a3, a4, a5, a6, a7, a8⟩
  rcases h with h | h | h | h | h | h | ⟨h', h⟩ <;> omega

/-- A length-4 statistics map is a literal four-element list. -/
theorem stats_four (stats : List Nat) (h : stats.length = 4) :
    ∃ a b c e, stats = [a, b, c, e] := by
  rcases stats with _ | ⟨a, _ | ⟨b, _ | ⟨c, _ | ⟨e, _ | ⟨x, r⟩⟩⟩⟩⟩ <;> simp at h
  exact ⟨a, b, c, e, rfl⟩

/-- On the drop path the dropped counter (index 2) gains exactly 1 and
    the udp counter (index 1) is unchanged. -/
theorem drop_path_getD (stats : List Nat) (h : stats.length = 4) :
    (update_stat (update_stat stats 0 1) 2 1).getD 2 0 = stats.getD 2 0 + 1 ∧
    (update_stat (update_stat stats 0 1) 2 1).getD 1 0 = stats.getD 1 0 := by
  obtain ⟨a, b, c, e, rfl⟩ := stats_four stats h
  exact ⟨rfl, rfl⟩

/-- On the UDP path the udp counter (index 1) gains exactly 1 and the
    dropped counter (index 2) is unchanged. -/
theorem udp_path_getD (stats : List Nat) (d : Nat) (h : stats.length = 4) :
    (update_stat (update_stat (update_stat stats 0 1) 1 1) 3 d).getD 1 0
      = stats.getD 1 0 + 1 ∧
    (update_stat (update_stat (update_stat stats 0 1) 1 1) 3 d).getD 2 0
      = stats.getD 2 0 := by
  obtain ⟨a, b, c, e, rfl⟩ := stats_four stats h
  exact ⟨rfl, rfl⟩

/-! ## Claim C4 -/

/-- Claim C4: for every input frame, including every malformed frame
    and the ring-full case, the classifier's verdict is PASS (it never
    returns DROP), and on each malformed frame or failed ring-buffer
    reservation it increments dropped_packets (index 2) by exactly 1. -/
theorem c4_classifier_safety (f : List Nat) (rf : Bool) (t d : Nat) (stats : List Nat)
    (hlen : stats.length = 4) :
    (xdp_packet_processor f rf t d stats).1 = XdpAction.XDP_PASS ∧
    (ClassifierMalformed f ∨ (classifier_accepts f ∧ rf = true) →
      (xdp_packet_processor f rf t d stats).2.1.getD 2 0 = stats.getD 2 0 + 1) := by
  refine ⟨xdp_verdict_pass f rf t d stats, fun h => ?_⟩
  rw [xdp_stats_char]
  have hno : ¬ (classifier_accepts f ∧ rf = false) := by
    rcases h with h | ⟨ha, hrf⟩
    · rintro ⟨ha, -⟩
      exact malformed_not_accepted f h ha
    · rintro ⟨-, hrf2⟩
      rw [hrf] at hrf2
      cases hrf2
  rw [if_neg hno]
  exact (drop_path_getD stats hlen).1

/-- Witness for C4 at a concrete truncated frame: verdict PASS and the
    dropped counter goes from 0 to 1. -/
theorem c4_classifier_safety_witness :
    (xdp_packet_processor badFrame10 false 0 0 [0, 0, 0, 0]).1 = XdpAction.XDP_PASS ∧
    (xdp_packet_processor badFrame10 false 0 0 [0, 0, 0, 0]).2.1.getD 2 0
      = [0, 0, 0, 0].getD 2 0 + 1 :=
  ⟨(c4_classifier_safety badFrame10 false 0 0 [0, 0, 0, 0] (by decide)).1,
   (c4_classifier_safety badFrame10 false 0 0 [0, 0, 0, 0] (by decide)).2
     (Or.inl (by decide))⟩

/-! ## Claim C1 -/

/-- Claim C1 counterexample: a well-formed IPv4 TCP frame is counted in
    dropped_packets (index 2: 0 to 1), not in any protocol counter (the
    only protocol counter, udp at index 1, stays 0; no tcp or other
    counter exists in the 4-entry statistics map of xdp_preproc.c). -/
theorem c1_tcp_counted_in_dropped :
    WellFormedIPv4 tcpFrame54 ∧ byteD tcpFrame54 23 = 6 ∧
    (xdp_packet_processor tcpFrame54 false 0 0 [0, 0, 0, 0]).2.1 = [1, 0, 1, 0] ∧
    (xdp_packet_processor tcpFrame54 false 0 0 [0, 0, 0, 0]).1 = XdpAction.XDP_PASS := by
  refine ⟨by decide, by decide, by decide, by decide⟩

/-- Claim C1 (amended): for every well-formed IPv4 frame the classifier
    keeps a protocol counter only for UDP: a UDP frame with a complete
    UDP header and ring space increments udp_packets (index 1), while a
    frame of any other IP protocol (TCP and ICMP included) increments
    dropped_packets (index 2); in each case the other counter is
    unchanged. -/
theorem c1_udp_only_counters (f : List Nat) (rf : Bool) (t d : Nat) (stats : List Nat)
    (hlen : stats.length = 4) (hwf : WellFormedIPv4 f) :
    (byteD f 23 ≠ 17 →
      (xdp_packet_processor f rf t d stats).2.1.getD 2 0 = stats.getD 2 0 + 1 ∧
      (xdp_packet_processor f rf t d stats).2.1.getD 1 0 = stats.getD 1 0) ∧
    (byteD f 23 = 17 → 14 + (byteD f 14 % 16) * 4 + 8 ≤ f.length → rf = false →
      (xdp_packet_processor f rf t d stats).2.1.getD 1 0 = stats.getD 1 0 + 1 ∧
      (xdp_packet_processor f rf t d stats).2.1.getD 2 0 = stats.getD 2 0) := by
  obtain ⟨w1, w2, w3, w4, w5, w6⟩ := hwf
  constructor
  · intro hproto
    rw [xdp_stats_char, if_neg (by rintro ⟨ha, -⟩; exact hproto ha.2.2.2.2.2.2.1)]
    exact ⟨(drop_path_getD stats hlen).1, (drop_path_getD stats hlen).2⟩
  · intro hproto hudp hrf
    have hacc : classifier_accepts f := ⟨w1, w2, w3, w4, w5, w6, hproto, hudp⟩
    rw [xdp_stats_char, if_pos ⟨hacc, hrf⟩]
    exact ⟨(udp_path_getD stats d hlen).1, (udp_path_getD stats d hlen).2⟩

/-- Witness for the amended C1 at the concrete TCP frame: the TCP
    branch of the theorem gives dropped 0 to 1 with udp unchanged. -/
theorem c1_udp_only_counters_witness :
    (xdp_packet_processor tcpFrame54 false 0 0 [0, 0, 0, 0]).2.1.getD 2 0
      = [0, 0, 0, 0].getD 2 0 + 1 ∧
    (xdp_packet_processor tcpFrame54 false 0 0 [0, 0, 0, 0]).2.1.getD 1 0
      = [0, 0, 0, 0].getD 1 0 :=
  (c1_udp_only_counters tcpFrame54 false 0 0 [0, 0, 0, 0] (by decide) (by decide)).1
    (by decide)

/-! ## Claim C8 -/

/-- Every `update_stat` is a fetch-add of a non-negative delta: no
    entry of the statistics map decreases. -/
theorem update_stat_le (l : List Nat) (j δ i : Nat) :
    l.getD i 0 ≤ (update_stat l j δ).getD i 0 := by
  induction l generalizing i j with
  | nil => simp [update_stat]
  | cons a l ih =>
    cases j with
    | zero =>
      cases i with
      | zero => simp [update_stat, byteD]
      | succ i => simp [update_stat, byteD]
    | succ j =>
      have hstep : update_stat (a :: l) (j + 1) δ = a :: update_stat l j δ := rfl
      rw [hstep]
      cases i with
      | zero => simp
      | succ i => simpa using ih j i

/-- One classifier invocation never decreases any statistics entry. -/
theorem xdp_step_le (f : List Nat) (rf : Bool) (d : Nat) (stats : List Nat) (i : Nat) :
    stats.getD i 0 ≤ ((xdp_packet_processor f rf 0 d stats).2.1).getD i 0 := by
  rw [xdp_stats_char]
  split_ifs
  · exact le_trans (update_stat_le stats 0 1 i)
      (le_trans (update_stat_le _ 1 1 i) (update_stat_le _ 3 d i))
  · exact le_trans (update_stat_le stats 0 1 i) (update_stat_le _ 2 1 i)

/-- Running a trace decomposes as running its two halves in order. -/
theorem xdp_run_append (tr tr' : List (List Nat × Bool × Nat)) (s : List Nat) :
    xdp_run (tr ++ tr') s = xdp_run tr' (xdp_run tr s) := by
  induction tr generalizing s with
  | nil => rfl
  | cons p tr ih =>
    obtain ⟨f, rf, d⟩ := p
    simp [xdp_run, ih]

/-- Running any trace never decreases any statistics entry. -/
theorem xdp_run_le (tr : List (List Nat × Bool × Nat)) (s : List Nat) (i : Nat) :
    s.getD i 0 ≤ (xdp_run tr s).getD i 0 := by
  induction tr generalizing s with
  | nil => exact le_refl _
  | cons p tr ih =>
    obtain ⟨f, rf, d⟩ := p
    exact le_trans (xdp_step_le f rf d s i) (ih _)

/-- Statistics output of the wrap-faithful classifier: the same two
    update chains as `xdp_stats_char`, with the modulo-2^64 adds. -/
theorem xdp_stats_char_u64 (f : List Nat) (rf : Bool) (t d : Nat) (stats : List Nat) :
    (xdp_packet_processor_u64 f rf t d stats).2.1 =
      if classifier_accepts f ∧ rf = false then
        update_stat_u64 (update_stat_u64 (update_stat_u64 stats 0 1) 1 1) 3 d
      else
        update_stat_u64 (update_stat_u64 stats 0 1) 2 1 := by
  unfold xdp_packet_processor_u64 classifier_accepts
  rw [parse_ethernet_eq f]
  by_cases h1 : 14 ≤ f.length ∧ be16 f 12 = 2048
  · rw [if_pos h1]
    dsimp only
    rw [parse_ipv4_eq f]
    by_cases h2 : 34 ≤ f.length ∧ byteD f 14 / 16 = 4 ∧ 5 ≤ byteD f 14 % 16 ∧
        14 + (byteD f 14 % 16) * 4 ≤ f.length ∧ byteD f 23 = 17
    · rw [if_pos h2]
      dsimp only
      rw [parse_udp_eq f]
      by_cases h3 : 14 + (byteD f 14 % 16) * 4 + 8 ≤ f.length
      · rw [if_pos h3]
        dsimp only
        cases rf
        · rw [if_neg (by simp), if_pos (by tauto)]
        · rw [if_pos rfl, if_neg (by simp)]
      · rw [if_neg h3, if_neg (by tauto)]
    · rw [if_neg h2, if_neg (by tauto)]
  · rw [if_neg h1, if_neg (by tauto)]

/-- One classifier invocation preserves the length of the map. -/
theorem xdp_step_length (f : List Nat) (rf : Bool) (t d : Nat) (stats : List Nat) :
    ((xdp_packet_processor f rf t d stats).2.1).length = stats.length := by
  rw [xdp_stats_char]
  split_ifs <;> simp [update_stat]

/-- Any classifier run preserves the length of the map. -/
theorem xdp_run_length (tr : List (List Nat × Bool × Nat)) (stats : List Nat) :
    (xdp_run tr stats).length = stats.length := by
  induction tr generalizing stats with
  | nil => rfl
  | cons p tr ih =>
    obtain ⟨f, rf, d⟩ := p
    rw [show xdp_run ((f, rf, d) :: tr) stats
          = xdp_run tr ((xdp_packet_processor f rf 0 d stats).2.1) from rfl,
        ih, xdp_step_length]

/-- As long as no counter of the step result has reached 2^64, the
    wrap-faithful step computes the same map as the
    mathematical-value step. -/
theorem xdp_step_u64_eq (f : List Nat) (rf : Bool) (d : Nat) (stats : List Nat)
    (h4 : stats.length = 4)
    (hlt : ∀ j, j < 4 →
      ((xdp_packet_processor f rf 0 d stats).2.1).getD j 0 < 18446744073709551616) :
    (xdp_packet_processor_u64 f rf 0 d stats).2.1
      = (xdp_packet_processor f rf 0 d stats).2.1 := by
  obtain ⟨a, b, c, e, rfl⟩ := stats_four stats h4
  rw [xdp_stats_char_u64, xdp_stats_char]
  by_cases hc : classifier_accepts f ∧ rf = false
  · rw [if_pos hc, if_pos hc]
    have h0 := hlt 0 (by norm_num)
    have h1 := hlt 1 (by norm_num)
    have h3 := hlt 3 (by norm_num)
    rw [xdp_stats_char, if_pos hc] at h0 h1 h3
    have ha : a + 1 < 18446744073709551616 := h0
    have hb : b + 1 < 18446744073709551616 := h1
    have he : e + d < 18446744073709551616 := h3
    show [(a + 1) % 18446744073709551616, (b + 1) % 18446744073709551616, c,
          (e + d) % 18446744073709551616] = [a + 1, b + 1, c, e + d]
    rw [Nat.mod_eq_of_lt ha, Nat.mod_eq_of_lt hb, Nat.mod_eq_of_lt he]
  · rw [if_neg hc, if_neg hc]
    have h0 := hlt 0 (by norm_num)
    have h2 := hlt 2 (by norm_num)
    rw [xdp_stats_char, if_neg hc] at h0 h2
    have ha : a + 1 < 18446744073709551616 := h0
    have hcc : c + 1 < 18446744073709551616 := h2
    show [(a + 1) % 18446744073709551616, b, (c + 1) % 18446744073709551616, e]
        = [a + 1, b, c + 1, e]
    rw [Nat.mod_eq_of_lt ha, Nat.mod_eq_of_lt hcc]

/-- As long as no counter wraps along the run, the wrap-faithful run
    equals the mathematical-value run. -/
theorem xdp_run_u64_eq (tr : List (List Nat × Bool × Nat)) (stats : List Nat)
    (h4 : stats.length = 4)
    (hnw : ∀ j, j < 4 → (xdp_run tr stats).getD j 0 < 18446744073709551616) :
    xdp_run_u64 tr stats = xdp_run tr stats := by
  induction tr generalizing stats with
  | nil => rfl
  | cons p tr ih =>
    obtain ⟨f, rf, d⟩ := p
    have hfin : ∀ j, j < 4 →
        (xdp_run tr ((xdp_packet_processor f rf 0 d stats).2.1)).getD j 0
          < 18446744073709551616 := fun j hj => hnw j hj
    have hstep_lt : ∀ j, j < 4 →
        ((xdp_packet_processor f rf 0 d stats).2.1).getD j 0 < 18446744073709551616 :=
      fun j hj => lt_of_le_of_lt (xdp_run_le tr _ j) (hfin j hj)
    have h4s : ((xdp_packet_processor f rf 0 d stats).2.1).length = 4 := by
      rw [xdp_step_length]
      exact h4
    show xdp_run_u64 tr ((xdp_packet_processor_u64 f rf 0 d stats).2.1)
        = xdp_run tr ((xdp_packet_processor f rf 0 d stats).2.1)
    rw [xdp_step_u64_eq f rf d stats h4 hstep_lt]
    exact ih _ h4s hfin

/-- Claim C8 counterexample: with the `__u64` wraparound of
    `__sync_fetch_and_add` modelled faithfully, monotonicity fails at
    the wrap point: starting from a total_packets counter at
    2^64 - 1, one more frame makes the later read (0) smaller than the
    earlier read (2^64 - 1), refuting the unconditional
    later-at-least-earlier claim. -/
theorem c8_wrap_counterexample :
    ¬ ((xdp_run_u64 [] [18446744073709551615, 0, 0, 0]).getD 0 0 ≤
       (xdp_run_u64 ([] ++ [(badFrame10, false, 0)])
          [18446744073709551615, 0, 0, 0]).getD 0 0) := by
  decide

/-- Claim C8 (amended): every statistics update is an atomic fetch-add
    of a non-negative delta modulo 2^64, so every counter of the
    wrap-faithful classifier is non-decreasing across observations as
    long as no counter's accumulated (unwrapped) value reaches 2^64;
    only at a 64-bit wrap, which the specification separately tells
    consumers to tolerate, can a later read be smaller. -/
theorem c8_wrap_monotonic (tr tr' : List (List Nat × Bool × Nat))
    (stats : List Nat) (i : Nat) (h4 : stats.length = 4)
    (hnw : ∀ j, j < 4 →
      (xdp_run (tr ++ tr') stats).getD j 0 < 18446744073709551616) :
    (xdp_run_u64 tr stats).getD i 0 ≤ (xdp_run_u64 (tr ++ tr') stats).getD i 0 := by
  have hpre : ∀ j, j < 4 →
      (xdp_run tr stats).getD j 0 < 18446744073709551616 := by
    intro j hj
    have hle : (xdp_run tr stats).getD j 0 ≤ (xdp_run (tr ++ tr') stats).getD j 0 := by
      rw [xdp_run_append]
      exact xdp_run_le tr' _ j
    exact lt_of_le_of_lt hle (hnw j hj)
  rw [xdp_run_u64_eq (tr ++ tr') stats h4 hnw, xdp_run_u64_eq tr stats h4 hpre,
      xdp_run_append]
  exact xdp_run_le tr' _ i

/-- Witness for the amended C8 on a concrete three-frame trace (a
    truncated frame, a steered UDP frame, a ring-full TCP frame) far
    from the wrap point: the dropped counter after the first frame is
    at most its value after all three. -/
theorem c8_wrap_monotonic_witness :
    (xdp_run_u64 [(badFrame10, false, 0)] [0, 0, 0, 0]).getD 2 0 ≤
    (xdp_run_u64 ([(badFrame10, false, 0)]
        ++ [(pkt142, false, 5), (tcpFrame54, true, 0)]) [0, 0, 0, 0]).getD 2 0 :=
  c8_wrap_monotonic [(badFrame10, false, 0)] [(pkt142, false, 5), (tcpFrame54, true, 0)]
    [0, 0, 0, 0] 2 (by decide) (by decide)

/-! ## Extractor characterizations -/

/-- When `extract_ml_features` succeeds, the delivered record is
    exactly the one built by `mkMlFeature`. -/
theorem extract_some_mk (body : List Nat → Nat) (now : Nat) (f : List Nat) (r : MlFeature)
    (h : extract_ml_features body now f = some r) : r = mkMlFeature body now f := by
  unfold extract_ml_features at h
  split_ifs at h
  injection h with h
  exact h.symm

/-- The L4 block on a TCP frame whose fixed TCP header fits. -/
theorem ml_l4_tcp (f : List Nat) (h6 : byteD f 23 = 6)
    (hb : 14 + (byteD f 14 % 16) * 4 + 20 ≤ f.length) :
    ml_l4 f = (be16 f (14 + (byteD f 14 % 16) * 4),
               be16 f (14 + (byteD f 14 % 16) * 4 + 2),
               byteD f (14 + (byteD f 14 % 16) * 4 + 13),
               be16 f (14 + (byteD f 14 % 16) * 4 + 14)) := by
  dsimp only [ml_l4]
  rw [if_pos h6, if_pos hb]

/-- The L4 block on a UDP frame whose UDP header fits. -/
theorem ml_l4_udp (f : List Nat) (h17 : byteD f 23 = 17)
    (hb : 14 + (byteD f 14 % 16) * 4 + 8 ≤ f.length) :
    ml_l4 f = (be16 f (14 + (byteD f 14 % 16) * 4),
               be16 f (14 + (byteD f 14 % 16) * 4 + 2), 0, 0) := by
  dsimp only [ml_l4]
  rw [if_neg (by rw [h17]; omega), if_pos h17, if_pos hb]

/-- The L4 block on a frame that is neither TCP nor UDP. -/
theorem ml_l4_other (f : List Nat) (h6 : byteD f 23 ≠ 6) (h17 : byteD f 23 ≠ 17) :
    ml_l4 f = (0, 0, 0, 0) := by
  dsimp only [ml_l4]
  rw [if_neg h6, if_neg h17]

/-! ## Claim C2 -/

/-- Claim C2 counterexample: on the specification's own example packet
    (20-byte IPv4 header, 8-byte UDP header, 100-byte payload, IPv4
    total length 128, captured frame 142 bytes) the delivered pkt_len
    is 142, the captured length including the Ethernet header, not the
    IPv4 total-length field 128. -/
theorem c2_pkt_len_counterexample :
    (extract_ml_features (fun _ => 0) 0 pkt142).map MlFeature.pkt_len = some 142 ∧
    be16 pkt142 16 = 128 ∧ (142 : Nat) ≠ 128 := by
  refine ⟨by decide, by decide, by decide⟩

/-- Claim C2 (amended): for every frame delivered to the analysis
    callback, pkt_len is the captured frame length including the
    Ethernet header, truncated to the 16-bit field. -/
theorem c2_pkt_len_captured (body : List Nat → Nat) (now : Nat) (f : List Nat)
    (r : MlFeature) (h : extract_ml_features body now f = some r) :
    r.pkt_len = f.length % 65536 := by
  rw [extract_some_mk body now f r h]
  rfl

/-- Witness for the amended C2 on the example packet. -/
theorem c2_pkt_len_captured_witness :
    (mkMlFeature (fun _ => 0) 0 pkt142).pkt_len = pkt142.length % 65536 :=
  c2_pkt_len_captured (fun _ => 0) 0 pkt142 (mkMlFeature (fun _ => 0) 0 pkt142) rfl

/-! ## Claim C5 -/

/-- Claim C5 counterexample: a UDP packet with src_port = dst_port =
    49152 is classified NORMAL (0), not SUSPICIOUS (1): the code's
    ephemeral test is the strict `port > 49152`. -/
theorem c5_ephemeral_counterexample :
    (extract_ml_features (fun _ => 0) 0 pkt49152).map MlFeature.src_port = some 49152 ∧
    (extract_ml_features (fun _ => 0) 0 pkt49152).map MlFeature.dst_port = some 49152 ∧
    (extract_ml_features (fun _ => 0) 0 pkt49152).map MlFeature.protocol = some 17 ∧
    (extract_ml_features (fun _ => 0) 0 pkt49152).map MlFeature.traffic_class = some 0 ∧
    (0 : Nat) ≠ 1 := by
  refine ⟨by decide, by decide, by decide, by decide, by decide⟩

/-- Claim C5 (amended): traffic_class follows the rule with the strict
    ephemeral threshold: a service port in {22, 53, 80, 443} gives
    PRIORITY (2); otherwise both ports strictly above 49152, or a
    protocol that is neither TCP nor UDP, gives SUSPICIOUS (1);
    otherwise NORMAL (0).  Both ports equal to 49152 therefore give
    NORMAL. -/
theorem c5_traffic_class_rule (body : List Nat → Nat) (now : Nat) (f : List Nat)
    (r : MlFeature) (h : extract_ml_features body now f = some r) :
    r.traffic_class =
      if r.src_port = 22 ∨ r.dst_port = 22 ∨ r.src_port = 53 ∨ r.dst_port = 53 ∨
         r.src_port = 80 ∨ r.dst_port = 80 ∨ r.src_port = 443 ∨ r.dst_port = 443 then 2
      else if (49152 < r.src_port ∧ 49152 < r.dst_port) ∨
              (r.protocol ≠ 6 ∧ r.protocol ≠ 17) then 1
      else 0 := by
  rw [extract_some_mk body now f r h]
  rfl

/-- Witness for the amended C5: the rule classifies the 49152/49152
    packet as NORMAL. -/
theorem c5_traffic_class_rule_witness :
    (mkMlFeature (fun _ => 0) 0 pkt49152).traffic_class = 0 := by
  rw [c5_traffic_class_rule (fun _ => 0) 0 pkt49152 (mkMlFeature (fun _ => 0) 0 pkt49152) rfl]
  decide

/-! ## Claim C6 -/

/-- Claim C6: every delivered record stores src_ip, dst_ip, src_port
    and dst_port in host byte order: the addresses are the
    network-order wire fields read as numbers (`ntohl` on the
    little-endian host), and when the L4 header is present the ports
    are the network-order wire ports read as numbers (`ntohs`); for a
    packet whose protocol is neither TCP nor UDP, src_port, dst_port,
    tcp_flags and window_size are all 0. -/
theorem c6_host_order_fields (body : List Nat → Nat) (now : Nat) (f : List Nat)
    (r : MlFeature) (h : extract_ml_features body now f = some r) :
    r.src_ip = be32 f 26 ∧ r.dst_ip = be32 f 30 ∧
    (r.protocol = 6 → 14 + (byteD f 14 % 16) * 4 + 20 ≤ f.length →
      r.src_port = be16 f (14 + (byteD f 14 % 16) * 4) ∧
      r.dst_port = be16 f (14 + (byteD f 14 % 16) * 4 + 2)) ∧
    (r.protocol = 17 → 14 + (byteD f 14 % 16) * 4 + 8 ≤ f.length →
      r.src_port = be16 f (14 + (byteD f 14 % 16) * 4) ∧
      r.dst_port = be16 f (14 + (byteD f 14 % 16) * 4 + 2)) ∧
    (r.protocol ≠ 6 → r.protocol ≠ 17 →
      r.src_port = 0 ∧ r.dst_port = 0 ∧ r.tcp_flags = 0 ∧ r.window_size = 0) := by
  obtain rfl := extract_some_mk body now f r h
  refine ⟨rfl, rfl, ?_, ?_, ?_⟩
  · intro h6 hb
    have h6' : byteD f 23 = 6 := h6
    constructor
    · show (ml_l4 f).1 = _
      rw [ml_l4_tcp f h6' hb]
    · show (ml_l4 f).2.1 = _
      rw [ml_l4_tcp f h6' hb]
  · intro h17 hb
    have h17' : byteD f 23 = 17 := h17
    constructor
    · show (ml_l4 f).1 = _
      rw [ml_l4_udp f h17' hb]
    · show (ml_l4 f).2.1 = _
      rw [ml_l4_udp f h17' hb]
  · intro h6 h17
    have h6' : byteD f 23 ≠ 6 := h6
    have h17' : byteD f 23 ≠ 17 := h17
    refine ⟨?_, ?_, ?_, ?_⟩
    · show (ml_l4 f).1 = 0
      rw [ml_l4_other f h6' h17']
    · show (ml_l4 f).2.1 = 0
      rw [ml_l4_other f h6' h17']
    · show (ml_l4 f).2.2.1 = 0
      rw [ml_l4_other f h6' h17']
    · show (ml_l4 f).2.2.2 = 0
      rw [ml_l4_other f h6' h17']

/-- Witness for C6 on a concrete ICMP frame: host-order source address
    192.168.1.5 and all four L4-derived fields zero. -/
theorem c6_host_order_fields_witness :
    (mkMlFeature (fun _ => 0) 0 pktIcmp).src_ip = be32 pktIcmp 26 ∧
    (mkMlFeature (fun _ => 0) 0 pktIcmp).src_port = 0 ∧
    (mkMlFeature (fun _ => 0) 0 pktIcmp).dst_port = 0 ∧
    (mkMlFeature (fun _ => 0) 0 pktIcmp).tcp_flags = 0 ∧
    (mkMlFeature (fun _ => 0) 0 pktIcmp).window_size = 0 := by
  have h := c6_host_order_fields (fun _ => 0) 0 pktIcmp
    (mkMlFeature (fun _ => 0) 0 pktIcmp) rfl
  have hz := h.2.2.2.2 (by decide) (by decide)
  exact ⟨h.1, hz.1, hz.2.1, hz.2.2.1, hz.2.2.2⟩

/-! ## Claim C7 -/

/-- Claim C7: for every parsed packet (with the capture below the
    16-bit truncation bound) the delivered payload_len equals
    max(0, capture length minus the header bytes the code consumed),
    in particular 0 when the headers consume the whole capture, and an
    empty payload always comes with packet_entropy 0. -/
theorem c7_payload_entropy (body : List Nat → Nat) (now : Nat) (f : List Nat)
    (r : MlFeature) (hsz : f.length < 65536)
    (h : extract_ml_features body now f = some r) :
    (r.payload_len : Int) = max 0 ((f.length : Int) - (ml_header_len f : Int)) ∧
    (r.payload_len = 0 → r.packet_entropy = 0) := by
  obtain rfl := extract_some_mk body now f r h
  constructor
  · show (((if ml_header_len f < f.length
        then (f.length - ml_header_len f) % 65536 else 0) : Nat) : Int) = _
    by_cases hlt : ml_header_len f < f.length
    · rw [if_pos hlt, Nat.mod_eq_of_lt (by omega), Nat.cast_sub hlt.le,
          max_eq_right (by simp; exact_mod_cast hlt.le)]
    · rw [if_neg hlt, max_eq_left (by simp; exact_mod_cast le_of_not_lt hlt)]
      simp
  · intro hp0
    have hp0' : (if ml_header_len f < f.length
        then (f.length - ml_header_len f) % 65536 else 0) = 0 := hp0
    by_cases hlt : ml_header_len f < f.length
    · rw [if_pos hlt, Nat.mod_eq_of_lt (by omega)] at hp0'
      omega
    · show (if ml_header_len f < f.length
          then calculate_entropy body ((f.drop (ml_header_len f)).take
            (if ml_header_len f < f.length
             then (f.length - ml_header_len f) % 65536 else 0))
          else 0) = 0
      rw [if_neg hlt]

/-- Witness for C7 on the example packet: payload_len 100 satisfies the
    max formula and the empty-payload implication holds. -/
theorem c7_payload_entropy_witness :
    (((mkMlFeature (fun _ => 0) 0 pkt142).payload_len : Int)
        = max 0 ((pkt142.length : Int) - (ml_header_len pkt142 : Int))) ∧
    ((mkMlFeature (fun _ => 0) 0 pkt142).payload_len = 0 →
      (mkMlFeature (fun _ => 0) 0 pkt142).packet_entropy = 0) :=
  c7_payload_entropy (fun _ => 0) 0 pkt142 (mkMlFeature (fun _ => 0) 0 pkt142)
    (by decide) rfl

/-! ## Claim C9 -/

/-- Claim C9: flow_hash is a pure function of
    (protocol, src_ip, dst_ip, src_port, dst_port): any two delivered
    records that agree on those five fields have the same flow_hash,
    whatever the frames' other bytes (ttl, payload, lengths, TCP
    flags) and timestamps were. -/
theorem c9_flow_hash_pure (b1 b2 : List Nat → Nat) (n1 n2 : Nat) (f1 f2 : List Nat)
    (r1 r2 : MlFeature)
    (h1 : extract_ml_features b1 n1 f1 = some r1)
    (h2 : extract_ml_features b2 n2 f2 = some r2)
    (hp : r1.protocol = r2.protocol) (hs : r1.src_ip = r2.src_ip)
    (hd : r1.dst_ip = r2.dst_ip) (hsp : r1.src_port = r2.src_port)
    (hdp : r1.dst_port = r2.dst_port) :
    r1.flow_hash = r2.flow_hash := by
  obtain rfl := extract_some_mk b1 n1 f1 r1 h1
  obtain rfl := extract_some_mk b2 n2 f2 r2 h2
  have e1 : (mkMlFeature b1 n1 f1).flow_hash =
      (mkMlFeature b1 n1 f1).src_ip ^^^ ((mkMlFeature b1 n1 f1).dst_ip <<< 32) ^^^
      ((mkMlFeature b1 n1 f1).src_port <<< 16) ^^^
      ((mkMlFeature b1 n1 f1).dst_port <<< 48) ^^^
      ((mkMlFeature b1 n1 f1).protocol <<< 8) := rfl
  have e2 : (mkMlFeature b2 n2 f2).flow_hash =
      (mkMlFeature b2 n2 f2).src_ip ^^^ ((mkMlFeature b2 n2 f2).dst_ip <<< 32) ^^^
      ((mkMlFeature b2 n2 f2).src_port <<< 16) ^^^
      ((mkMlFeature b2 n2 f2).dst_port <<< 48) ^^^
      ((mkMlFeature b2 n2 f2).protocol <<< 8) := rfl
  rw [e1, e2, hp, hs, hd, hsp, hdp]

/-- Witness for C9: two concrete frames with the same 5-tuple but
    different ttl, payload bytes and lengths get equal flow hashes. -/
theorem c9_flow_hash_pure_witness :
    (mkMlFeature (fun _ => 0) 0 pkt142).flow_hash
      = (mkMlFeature (fun _ => 0) 0 pkt142b).flow_hash :=
  c9_flow_hash_pure (fun _ => 0) (fun _ => 0) 0 0 pkt142 pkt142b
    (mkMlFeature (fun _ => 0) 0 pkt142) (mkMlFeature (fun _ => 0) 0 pkt142b)
    rfl rfl (by decide) (by decide) (by decide) (by decide) (by decide)

/-! ## Drainer batch loop -/

/-- Per-descriptor step: counts the descriptor in rx_packets, touches
    neither the rings nor the frame stack, and returns the extraction
    result as the record handed to the callback (if any). -/
theorem process_one_char (body : List Nat → Nat) (cb : MlFeature → Int) (now delta : Nat)
    (st : DrainerState) (p : Nat × List Nat) :
    (process_one body cb now delta st p).1.stats.rx_packets = st.stats.rx_packets + 1 ∧
    (process_one body cb now delta st p).1.rxReleased = st.rxReleased ∧
    (process_one body cb now delta st p).1.umem_frame_free = st.umem_frame_free ∧
    (process_one body cb now delta st p).1.umem_frame_addr = st.umem_frame_addr ∧
    (process_one body cb now delta st p).1.fill = st.fill ∧
    (process_one body cb now delta st p).2 = extract_ml_features body now p.2 ∧
    (process_one body cb now delta st p).1.stats.ml_features_extracted
      = st.stats.ml_features_extracted
        + (if (extract_ml_features body now p.2).isSome then 1 else 0) := by
  cases hx : extract_ml_features body now p.2 <;> simp [process_one, hx]

/-- The per-descriptor loop: counts every peeked descriptor in
    rx_packets, touches neither the rings nor the frame stack, and
    hands to the callback exactly the records of the frames that
    re-parse, in order. -/
theorem process_loop_spec (body : List Nat → Nat) (cb : MlFeature → Int) (now delta : Nat)
    (batch : List (Nat × List Nat)) (st : DrainerState) :
    (process_loop body cb now delta batch st).1.stats.rx_packets
        = st.stats.rx_packets + batch.length ∧
    (process_loop body cb now delta batch st).1.rxReleased = st.rxReleased ∧
    (process_loop body cb now delta batch st).1.umem_frame_free = st.umem_frame_free ∧
    (process_loop body cb now delta batch st).1.umem_frame_addr = st.umem_frame_addr ∧
    (process_loop body cb now delta batch st).1.fill = st.fill ∧
    (process_loop body cb now delta batch st).2
        = batch.filterMap (fun p => extract_ml_features body now p.2) ∧
    (process_loop body cb now delta batch st).1.stats.ml_features_extracted
        = st.stats.ml_features_extracted
          + (batch.filterMap (fun p => extract_ml_features body now p.2)).length := by
  induction batch generalizing st with
  | nil => simp [process_loop]
  | cons p rest ih =>
    obtain ⟨o1, o2, o3, o4, o5, o6, o7⟩ := process_one_char body cb now delta st p
    obtain ⟨i1, i2, i3, i4, i5, i6, i7⟩ := ih (process_one body cb now delta st p).1
    have hfst : (process_loop body cb now delta (p :: rest) st).1 =
        (process_loop body cb now delta rest (process_one body cb now delta st p).1).1 := rfl
    have hsnd : (process_loop body cb now delta (p :: rest) st).2 =
        (match (process_one body cb now delta st p).2 with
         | some feat =>
             feat :: (process_loop body cb now delta rest
                        (process_one body cb now delta st p).1).2
         | none => (process_loop body cb now delta rest
                      (process_one body cb now delta st p).1).2) := rfl
    refine ⟨?_, ?_, ?_, ?_, ?_, ?_, ?_⟩
    · rw [hfst, i1, o1]
      simp
      omega
    · rw [hfst, i2, o2]
    · rw [hfst, i3, o3]
    · rw [hfst, i4, o4]
    · rw [hfst, i5, o5]
    · rw [hsnd, o6, i6]
      cases hx : extract_ml_features body now p.2 <;> simp [hx]
    · rw [hfst, i7, o7]
      cases hx : extract_ml_features body now p.2 <;> simp [hx] <;> omega

/-! ## Claim C10 -/

/-- Claim C10: in each drainer batch iteration, every peeked descriptor
    increments rx_packets and is released from the RX ring whether or
    not feature extraction succeeds, and the analysis callback is
    invoked exactly for the frames that successfully re-parse as IPv4,
    in order; a frame that fails re-parse is consumed silently with no
    callback invocation. -/
theorem c10_drainer_batch (body : List Nat → Nat) (cb : MlFeature → Int) (now delta : Nat)
    (canReserve : Bool) (batch : List (Nat × List Nat)) (st : DrainerState) :
    (process_batch body cb now delta canReserve batch st).1.stats.rx_packets
        = st.stats.rx_packets + batch.length ∧
    (process_batch body cb now delta canReserve batch st).1.rxReleased
        = st.rxReleased + batch.length ∧
    (process_batch body cb now delta canReserve batch st).2
        = batch.filterMap (fun p => extract_ml_features body now p.2) ∧
    (process_batch body cb now delta canReserve batch st).1.stats.ml_features_extracted
        = st.stats.ml_features_extracted
          + (batch.filterMap (fun p => extract_ml_features body now p.2)).length := by
  obtain ⟨i1, i2, i3, i4, i5, i6, i7⟩ := process_loop_spec body cb now delta batch st
  unfold process_batch
  refine ⟨?_, ?_, ?_, ?_⟩ <;> simp [i1, i2, i6, i7]

/-! ## Claim C3 -/

/-- Claim C3 (the code violates it): in the very first batch after
    startup, with the drainer having peeked exactly the descriptor for
    frame address 0, the addresses the drainer publishes back to the
    fill ring are popped from the never-replenished umem_frame_addr
    stack: it publishes 8386560 (frame 4095), not the peeked frame 0.
    The peeked frame is never returned, so frame conservation fails. -/
theorem c3_fill_return_bug :
    (process_batch (fun _ => 0) (fun _ => 0) 0 0 true [(0, pkt142)] initDrainer).1.fill
      = initFrameAddrs ++ [8386560] ∧
    ¬ (8386560 ∈ ([(0, pkt142)].map Prod.fst : List Nat)) ∧
    (0 : Nat) ∈ ([(0, pkt142)].map Prod.fst : List Nat) := by
  refine ⟨rfl, by decide, by decide⟩
